import Mathlib

/-!
Shallow embedding of `src/getSystemStatus/__init__.py`, a serverless HTTP
handler that discovers sibling function directories, probes each over HTTP,
and returns an aggregated JSON health report.

External effects are modelled as explicit parameters:
  * the deployment directory listing is a `List DirEntry`;
  * each outbound HTTP GET either yields a response (status code plus the
    wall-clock elapsed milliseconds measured around the call) or raises a
    `requests` exception carrying a string detail, captured by `HttpOutcome`;
  * the current timestamp string is a parameter `now`.
Elapsed times and the derived averages are idealised as rationals; Python's
fixed-point formatting `f"{x:.0f}"` and `f"{x:.1f}"` round half to even,
embedded by `pyRoundHalfEven`.
-/

namespace GetSystemStatus

/-- Python `s.lower()` (ASCII range, which covers the directory names in
play): each character lower-cased. -/
def py_lower (s : String) : String :=
  String.mk (s.data.map Char.toLower)

/-- Python `s.startswith(p)`: the characters of `p` are a prefix of the
characters of `s`. -/
def py_startswith (s p : String) : Bool :=
  p.data.isPrefixOf s.data

/-- One entry of `os.listdir` on the function-app directory, together with
the `os.path.isdir` result for it. -/
structure DirEntry where
  name : String
  isDir : Bool
deriving DecidableEq, Repr

/-- The dictionary built by `check_function` for one probed service. -/
structure ProbeResult where
  name : String
  status : String
  response_time : String
  status_code : Int
  elapsed : ℚ
  error : Option String
deriving DecidableEq, Repr

/-- Outcome of the outbound `requests.get` call: either a response with its
HTTP status code and the measured elapsed milliseconds, or a raised
`requests.exceptions.RequestException` whose `str()` is `detail`. -/
inductive HttpOutcome where
  | response (status_code : Int) (elapsed : ℚ)
  | exception (detail : String)
deriving DecidableEq, Repr

/-- Round-half-to-even (banker's rounding), the rounding used by Python's
fixed-point float formatting, idealised over ℚ. -/
def pyRoundHalfEven (q : ℚ) : Int :=
  if 2 * (q.num - q.floor * (q.den : Int)) < (q.den : Int) then q.floor
  else if (q.den : Int) < 2 * (q.num - q.floor * (q.den : Int)) then q.floor + 1
  else if q.floor % 2 = 0 then q.floor else q.floor + 1

/-- Python `f"{q:.0f}"`: q rounded half-to-even to an integer, rendered. -/
def fmtFixed0 (q : ℚ) : String :=
  toString (pyRoundHalfEven q)

/-- Python `f"{q:.1f}"`: q rounded half-to-even to one decimal, rendered.
`mkRat (10 * q.num) q.den` is the rational `10 * q`, written so that it
evaluates by kernel reduction. -/
def fmtFixed1 (q : ℚ) : String :=
  let n := pyRoundHalfEven (mkRat (10 * q.num) q.den)
  let sign := if n < 0 then "-" else ""
  sign ++ toString (n.natAbs / 10) ++ "." ++ toString (n.natAbs % 10)

/-- `get_function_list`: enumerate the function-app directory, keeping
directories whose name does not start with a double underscore or a dot, is
not `tests`, and is not (case-insensitively) the aggregator's own name; each
kept name is lower-cased. -/
def get_function_list (entries : List DirEntry) : List String :=
  (entries.filter (fun item =>
      item.isDir
      && !(py_startswith item.name ("__"))
      && !(py_startswith item.name ("."))
      && (item.name != "tests")
      && (py_lower item.name != "getsystemstatus"))).map
    (fun item => py_lower item.name)

/-- `check_function`: probe one service. On a response, status is
`running` when the HTTP code is below 500 and `error` otherwise, and the
response time is the measured elapsed milliseconds formatted `f"{e:.0f}ms"`.
On a raised request exception, a structured error result is returned. -/
def check_function (func_name : String) (outcome : HttpOutcome) : ProbeResult :=
  match outcome with
  | HttpOutcome.response code elapsed =>
      { name := func_name
        status := if code < 500 then "running" else "error"
        response_time := fmtFixed0 elapsed ++ "ms"
        status_code := code
        elapsed := elapsed
        error := none }
  | HttpOutcome.exception detail =>
      { name := func_name
        status := "error"
        response_time := "0ms"
        status_code := 500
        elapsed := 0
        error := some detail }

/-- Value of one metrics entry: the first two are integers, the formatted
average response time and health percentage are strings. -/
inductive MetricValue where
  | intVal (n : Int)
  | strVal (s : String)
deriving DecidableEq, Repr

/-- One entry of the report's `metrics` array. -/
structure Metric where
  name : String
  value : MetricValue
deriving DecidableEq, Repr

/-- The JSON body built by `main`: `functions` and `metrics` are present on
the success path and absent on the top-level fault path; `error` is present
only on the fault path. -/
structure StatusReport where
  state : String
  availability : String
  last_checked : String
  host_names : List String
  functions : Option (List ProbeResult)
  metrics : Option (List Metric)
  error : Option String
deriving DecidableEq, Repr

/-- The CORS headers that `add_cors_headers` may set on a response. -/
structure CorsHeaders where
  allowOrigin : Option String
  allowMethods : Option String
  allowHeaders : Option String
deriving DecidableEq, Repr

/-- An `azure.functions` HTTP response: transport status code, optional
JSON body (the status report), and the CORS headers. -/
structure HttpResponse where
  status_code : Nat
  body : Option StatusReport
  headers : CorsHeaders
deriving DecidableEq, Repr

/-- The inbound request: its method and `req.headers.get('Origin', '')`
(the empty string standing for an absent Origin header). -/
structure HttpRequest where
  method : String
  origin : String
deriving DecidableEq, Repr

/-- The external world of one invocation: either discovery and all probes
proceed (the directory listing, each probe's outcome, the timestamp), or an
uncaught fault with stringification `detail` is raised inside the `try`. -/
inductive Env where
  | ok (entries : List DirEntry) (outcomes : String → HttpOutcome) (now : String)
  | fault (detail : String) (now : String)

/-- The two allow-listed CORS origins. -/
def allowed_origins : List String :=
  ["http://localhost:5173", "https://seeker.cityoftraitors.com"]

/-- `add_cors_headers`: reflect the request Origin back when allow-listed,
and always set the allowed methods and headers. -/
def add_cors_headers (req : HttpRequest) (response : HttpResponse) : HttpResponse :=
  let origin := req.origin
  { response with
    headers :=
      { allowOrigin :=
          if origin ∈ allowed_origins then some origin
          else response.headers.allowOrigin
        allowMethods := some ("GET, OPTIONS")
        allowHeaders := some ("Content-Type") } }

/-- `functions_to_check`: the discovered names with `callback` filtered out
before any probing. -/
def functions_to_check (entries : List DirEntry) : List String :=
  (get_function_list entries).filter (fun f => py_lower f != "callback")

/-- `function_statuses`: the probe results, one per checked service, in
discovery order. -/
def function_statuses (entries : List DirEntry) (outcomes : String → HttpOutcome) :
    List ProbeResult :=
  (functions_to_check entries).map (fun n => check_function n (outcomes n))

/-- `healthy_functions`: the probe results whose status is `running`. -/
def healthy_functions (statuses : List ProbeResult) : List ProbeResult :=
  statuses.filter (fun f => f.status == "running")

/-- `total_response_time`: sum of the `elapsed` field over the results. -/
def total_response_time (statuses : List ProbeResult) : ℚ :=
  (statuses.map (fun f => f.elapsed)).sum

/-- `avg_response_time`: total over count, guarded against a zero count. -/
def avg_response_time (total : ℚ) (num_checked : Nat) : ℚ :=
  if 0 < num_checked then total / (num_checked : ℚ) else 0

/-- `health_percentage`: healthy over count times 100, guarded against a
zero count. -/
def health_percentage (num_healthy num_checked : Nat) : ℚ :=
  if 0 < num_checked then ((num_healthy : ℚ) / (num_checked : ℚ)) * 100 else 0

/-- The `status` dictionary built on the success path of `main`. -/
def success_report (now : String) (entries : List DirEntry)
    (outcomes : String → HttpOutcome) : StatusReport :=
  let statuses := function_statuses entries outcomes
  let healthy := healthy_functions statuses
  let num_checked := (functions_to_check entries).length
  let avg := avg_response_time (total_response_time statuses) num_checked
  let hp := health_percentage healthy.length num_checked
  { state := if healthy.length = num_checked then "running" else "degraded"
    availability := if healthy.length = num_checked then "normal" else "limited"
    last_checked := now
    host_names := ["seeker-functions.azurewebsites.net"]
    functions := some statuses
    metrics := some
      [ { name := "Total Functions Checked", value := MetricValue.intVal num_checked }
      , { name := "Healthy Functions", value := MetricValue.intVal healthy.length }
      , { name := "Average Response Time", value := MetricValue.strVal (fmtFixed0 avg ++ "ms") }
      , { name := "Health Percentage", value := MetricValue.strVal (fmtFixed1 hp ++ "%") } ]
    error := none }

/-- The `status` dictionary built in the top-level `except` handler. -/
def error_report (now detail : String) : StatusReport :=
  { state := "error"
    availability := "limited"
    last_checked := now
    host_names := ["seeker-functions.azurewebsites.net"]
    functions := none
    metrics := none
    error := some detail }

/-- `main`: OPTIONS short-circuits with an empty 200; otherwise the success
report or, on an uncaught fault, the error report is returned, always with
transport status 200 and always through `add_cors_headers`. -/
def main (req : HttpRequest) (env : Env) : HttpResponse :=
  if req.method == "OPTIONS" then
    add_cors_headers req { status_code := 200, body := none, headers := ⟨none, none, none⟩ }
  else
    match env with
    | Env.ok entries outcomes now =>
        add_cors_headers req
          { status_code := 200
            body := some (success_report now entries outcomes)
            headers := ⟨none, none, none⟩ }
    | Env.fault detail now =>
        add_cors_headers req
          { status_code := 200
            body := some (error_report now detail)
            headers := ⟨none, none, none⟩ }

example : get_function_list [⟨"Tests", true⟩, ⟨"tests", true⟩, ⟨"__pycache__", true⟩,
    ⟨".git", true⟩, ⟨"GetSystemStatus", true⟩, ⟨"callback", true⟩, ⟨"Foo", true⟩,
    ⟨"bar", false⟩] = ["tests", "callback", "foo"] := by decide

example : fmtFixed0 (mkRat 25 10) = "2" := by decide
example : fmtFixed0 (mkRat 35 10) = "4" := by decide
example : fmtFixed0 (mkRat 26 10) = "3" := by decide
example : fmtFixed0 (mkRat (-25) 10) = "-2" := by decide
example : fmtFixed1 (mkRat 200 3) = "66.7" := by decide
example : fmtFixed1 (100) = "100.0" := by decide
example : fmtFixed1 (mkRat 25 1000) = "0.0" := by decide
example : fmtFixed1 (mkRat 75 1000) = "0.1" := by decide

/-! ### Helper lemmas -/

theorem rat_floor_eq_int_floor (q : ℚ) : q.floor = ⌊q⌋ := by
  rw [Rat.floor_def', Rat.floor_def]

theorem check_function_name_eq (func_name : String) (outcome : HttpOutcome) :
    (check_function func_name outcome).name = func_name := by
  cases outcome <;> rfl

theorem add_cors_headers_fields (req : HttpRequest) (r : HttpResponse) :
    (add_cors_headers req r).status_code = r.status_code ∧
    (add_cors_headers req r).body = r.body ∧
    (add_cors_headers req r).headers.allowMethods = some ("GET, OPTIONS") ∧
    (add_cors_headers req r).headers.allowHeaders = some ("Content-Type") ∧
    (add_cors_headers req r).headers.allowOrigin =
      (if req.origin ∈ allowed_origins then some req.origin else r.headers.allowOrigin) :=
  ⟨rfl, rfl, rfl, rfl, rfl⟩

/-- Round-half-to-even lands on a nearest integer: the distance from the
rounded value to the input is at most one half. -/
theorem pyRoundHalfEven_nearest (q : ℚ) : |(pyRoundHalfEven q : ℚ) - q| ≤ 1/2 := by
  have hle : ((⌊q⌋ : ℚ)) ≤ q := Int.floor_le q
  have hlt : q < ⌊q⌋ + 1 := Int.lt_floor_add_one q
  have hden : (0 : ℚ) < (q.den : ℚ) := by exact_mod_cast q.pos
  have hnum : (q.num : ℚ) = q * (q.den : ℚ) := by
    have hd : ((q.den : ℚ)) ≠ 0 := by exact_mod_cast q.den_ne_zero
    have h := Rat.num_div_den q
    rw [div_eq_iff hd] at h
    exact h
  unfold pyRoundHalfEven
  rw [rat_floor_eq_int_floor]
  rw [abs_le]
  split_ifs with h1 h2 h3
  · have h1q : ((2 * (q.num - ⌊q⌋ * (q.den : Int)) : Int) : ℚ) < ((q.den : Int) : ℚ) := by
      exact_mod_cast h1
    push_cast at h1q
    rw [hnum] at h1q
    constructor <;> nlinarith [hle, hlt, hden, h1q]
  · have h2q : (((q.den : Int) : Int) : ℚ) < ((2 * (q.num - ⌊q⌋ * (q.den : Int)) : Int) : ℚ) := by
      exact_mod_cast h2
    push_cast at h2q
    rw [hnum] at h2q
    push_cast
    constructor <;> nlinarith [hle, hlt, hden, h2q]
  · have heq : ((2 * (q.num - ⌊q⌋ * (q.den : Int)) : Int) : ℚ) = ((q.den : Int) : ℚ) := by
      exact_mod_cast le_antisymm (not_lt.mp h2) (not_lt.mp h1)
    push_cast at heq
    rw [hnum] at heq
    constructor <;> nlinarith [hden, heq]
  · have heq : ((2 * (q.num - ⌊q⌋ * (q.den : Int)) : Int) : ℚ) = ((q.den : Int) : ℚ) := by
      exact_mod_cast le_antisymm (not_lt.mp h2) (not_lt.mp h1)
    push_cast at heq
    rw [hnum] at heq
    push_cast
    constructor <;> nlinarith [hden, heq]

/-! ### Claim theorems -/

/-- C3: for a probe that receives an HTTP response, the result's status is
`running` exactly when the status code is below 500 (`error` otherwise), and
its response time is the measured elapsed milliseconds rounded to a nearest
integer (half to even) and rendered with an `ms` suffix; the raw elapsed
value is recorded unchanged. -/
theorem probe_response_status_and_time (func_name : String) (code : Int) (elapsed : ℚ) :
    ((check_function func_name (HttpOutcome.response code elapsed)).status
        = if code < 500 then "running" else "error") ∧
    ((check_function func_name (HttpOutcome.response code elapsed)).status = "running" ↔
        code < 500) ∧
    ((check_function func_name (HttpOutcome.response code elapsed)).response_time
        = toString (pyRoundHalfEven elapsed) ++ "ms") ∧
    |(pyRoundHalfEven elapsed : ℚ) - elapsed| ≤ 1/2 ∧
    (check_function func_name (HttpOutcome.response code elapsed)).elapsed = elapsed := by
  refine ⟨rfl, ?_, rfl, pyRoundHalfEven_nearest elapsed, rfl⟩
  by_cases h : code < 500 <;> simp [check_function, h]

/-- C4: for a probe whose HTTP request raises an exception, the result is a
structured error: status `error`, response time `0ms`, status code 500,
elapsed 0, and the error field carries the stringified exception, which is
non-empty whenever the stringification is. -/
theorem probe_exception_structured_error (func_name detail : String) (h : detail ≠ "") :
    (check_function func_name (HttpOutcome.exception detail)).status = "error" ∧
    (check_function func_name (HttpOutcome.exception detail)).response_time = "0ms" ∧
    (check_function func_name (HttpOutcome.exception detail)).status_code = 500 ∧
    (check_function func_name (HttpOutcome.exception detail)).elapsed = 0 ∧
    (check_function func_name (HttpOutcome.exception detail)).error = some detail ∧
    (check_function func_name (HttpOutcome.exception detail)).error ≠ some ("") := by
  refine ⟨rfl, rfl, rfl, rfl, rfl, ?_⟩
  simp [check_function]
  exact h

theorem probe_exception_structured_error_witness :
    ("HTTPSConnectionPool timeout" ≠ ("" : String)) ∧
    ((check_function ("getusertable") (HttpOutcome.exception ("HTTPSConnectionPool timeout"))).status = "error" ∧
     (check_function ("getusertable") (HttpOutcome.exception ("HTTPSConnectionPool timeout"))).response_time = "0ms" ∧
     (check_function ("getusertable") (HttpOutcome.exception ("HTTPSConnectionPool timeout"))).status_code = 500 ∧
     (check_function ("getusertable") (HttpOutcome.exception ("HTTPSConnectionPool timeout"))).elapsed = 0 ∧
     (check_function ("getusertable") (HttpOutcome.exception ("HTTPSConnectionPool timeout"))).error = some ("HTTPSConnectionPool timeout") ∧
     (check_function ("getusertable") (HttpOutcome.exception ("HTTPSConnectionPool timeout"))).error ≠ some ("")) :=
  ⟨by decide, probe_exception_structured_error ("getusertable") ("HTTPSConnectionPool timeout") (by decide)⟩

/-- C10: a probe result carries an error field exactly when the request
raised: for every received response, whatever its status code, the error
field is absent, and for every raised exception it is present; in
particular a received response with code at or above 500 yields status
`error` and records the received code, still with no error field. The two
`HttpOutcome` constructors are exhaustive, so the first two conjuncts,
quantified over every code and elapsed value, cover every probe result. -/
theorem error_field_iff_exception (func_name detail : String)
    (codeAny code : Int) (elapsedAny elapsed : ℚ) (h : 500 ≤ code) :
    (check_function func_name (HttpOutcome.response codeAny elapsedAny)).error = none ∧
    (check_function func_name (HttpOutcome.exception detail)).error = some detail ∧
    (check_function func_name (HttpOutcome.response code elapsed)).status = "error" ∧
    (check_function func_name (HttpOutcome.response code elapsed)).status_code = code ∧
    (check_function func_name (HttpOutcome.response code elapsed)).error = none := by
  refine ⟨rfl, rfl, ?_, rfl, rfl⟩
  have hn : ¬ code < 500 := not_lt.mpr h
  simp [check_function, hn]

theorem error_field_iff_exception_witness :
    ((500 : Int) ≤ 503) ∧
    ((check_function ("gettimestamp") (HttpOutcome.response 200 (mkRat 42 10))).error = none ∧
     (check_function ("gettimestamp") (HttpOutcome.exception ("refused"))).error = some ("refused") ∧
     (check_function ("gettimestamp") (HttpOutcome.response 503 (mkRat 1234 10))).status = "error" ∧
     (check_function ("gettimestamp") (HttpOutcome.response 503 (mkRat 1234 10))).status_code = 503 ∧
     (check_function ("gettimestamp") (HttpOutcome.response 503 (mkRat 1234 10))).error = none) :=
  ⟨by decide, error_field_iff_exception ("gettimestamp") ("refused") 200 503
    (mkRat 42 10) (mkRat 1234 10) (by decide)⟩

/-- C8: on every path, the Access-Control-Allow-Origin header is the
request's Origin exactly when that Origin is one of the two allow-listed
values and absent otherwise, and every response carries the fixed
Allow-Methods and Allow-Headers values. -/
theorem cors_headers_policy (req : HttpRequest) (env : Env) :
    ((main req env).headers.allowOrigin =
      if req.origin = "http://localhost:5173" ∨ req.origin = "https://seeker.cityoftraitors.com"
      then some req.origin else none) ∧
    (main req env).headers.allowMethods = some ("GET, OPTIONS") ∧
    (main req env).headers.allowHeaders = some ("Content-Type") := by
  have hmem : req.origin ∈ allowed_origins ↔
      (req.origin = "http://localhost:5173" ∨ req.origin = "https://seeker.cityoftraitors.com") := by
    simp [allowed_origins]
  by_cases ho : req.origin = "http://localhost:5173" ∨ req.origin = "https://seeker.cityoftraitors.com" <;>
    rcases env with ⟨entries, outcomes, now⟩ | ⟨detail, now⟩ <;>
    by_cases hm : req.method == "OPTIONS" <;>
    simp [main, hm, add_cors_headers, hmem, ho]

/-- C7: on an uncaught fault the body is the degraded report: state `error`,
availability `limited`, the current timestamp, the unchanged host names, the
stringified fault, and no functions or metrics fields; the transport status
code is 200 on every path, the fault path included. -/
theorem fault_report_and_transport_200 (req reqAny : HttpRequest) (env : Env)
    (detail now : String) (h : req.method ≠ "OPTIONS") :
    (main reqAny env).status_code = 200 ∧
    (main req (Env.fault detail now)).body = some (error_report now detail) ∧
    (error_report now detail).state = "error" ∧
    (error_report now detail).availability = "limited" ∧
    (error_report now detail).last_checked = now ∧
    (error_report now detail).host_names = ["seeker-functions.azurewebsites.net"] ∧
    (error_report now detail).error = some detail ∧
    (error_report now detail).functions = none ∧
    (error_report now detail).metrics = none := by
  refine ⟨?_, ?_, rfl, rfl, rfl, rfl, rfl, rfl, rfl⟩
  · rcases env with ⟨entries, outcomes, now2⟩ | ⟨detail2, now2⟩ <;>
      by_cases hm : reqAny.method == "OPTIONS" <;>
      simp [main, hm, add_cors_headers]
  · simp [main, h, add_cors_headers]

theorem fault_report_and_transport_200_witness :
    ((main ⟨"OPTIONS", ""⟩ (Env.fault ("oserror") ("t1"))).status_code = 200 ∧
     (main ⟨"GET", ""⟩ (Env.fault ("listdir failed") ("2025-01-01T00:00:00"))).body
        = some (error_report ("2025-01-01T00:00:00") ("listdir failed")) ∧
     (error_report ("2025-01-01T00:00:00") ("listdir failed")).state = "error" ∧
     (error_report ("2025-01-01T00:00:00") ("listdir failed")).availability = "limited" ∧
     (error_report ("2025-01-01T00:00:00") ("listdir failed")).last_checked = "2025-01-01T00:00:00" ∧
     (error_report ("2025-01-01T00:00:00") ("listdir failed")).host_names = ["seeker-functions.azurewebsites.net"] ∧
     (error_report ("2025-01-01T00:00:00") ("listdir failed")).error = some ("listdir failed") ∧
     (error_report ("2025-01-01T00:00:00") ("listdir failed")).functions = none ∧
     (error_report ("2025-01-01T00:00:00") ("listdir failed")).metrics = none) :=
  fault_report_and_transport_200 ⟨"GET", ""⟩ ⟨"OPTIONS", ""⟩
    (Env.fault ("oserror") ("t1")) ("listdir failed") ("2025-01-01T00:00:00") (by decide)

/-- C1: on the success path the report's state is `running` exactly when
the number of `running` probe results equals the number of probed services
and `degraded` otherwise; availability is `normal` under the same condition
and `limited` otherwise; with zero probe-eligible services the state is
`running`. -/
theorem state_availability_iff_all_healthy (req : HttpRequest) (entries : List DirEntry)
    (outcomes : String → HttpOutcome) (now : String) (h : req.method ≠ "OPTIONS") :
    (main req (Env.ok entries outcomes now)).body = some (success_report now entries outcomes) ∧
    ((success_report now entries outcomes).state = "running" ↔
      (healthy_functions (function_statuses entries outcomes)).length
        = (functions_to_check entries).length) ∧
    ((success_report now entries outcomes).state = "degraded" ↔
      ¬ (healthy_functions (function_statuses entries outcomes)).length
        = (functions_to_check entries).length) ∧
    ((success_report now entries outcomes).availability = "normal" ↔
      (healthy_functions (function_statuses entries outcomes)).length
        = (functions_to_check entries).length) ∧
    ((success_report now entries outcomes).availability = "limited" ↔
      ¬ (healthy_functions (function_statuses entries outcomes)).length
        = (functions_to_check entries).length) ∧
    ((functions_to_check entries).length = 0 →
      (success_report now entries outcomes).state = "running") := by
  have hbody : (main req (Env.ok entries outcomes now)).body
      = some (success_report now entries outcomes) := by
    simp [main, h, add_cors_headers]
  by_cases hc : (healthy_functions (function_statuses entries outcomes)).length
      = (functions_to_check entries).length
  · refine ⟨hbody, ?_, ?_, ?_, ?_, ?_⟩ <;> simp [success_report, hc]
  · refine ⟨hbody, ?_, ?_, ?_, ?_, ?_⟩
    · simp [success_report, hc]
    · simp [success_report, hc]
    · simp [success_report, hc]
    · simp [success_report, hc]
    · intro h0
      exfalso
      apply hc
      rw [h0]
      have : function_statuses entries outcomes = [] := by
        rw [function_statuses, List.map_eq_nil_iff]
        exact List.length_eq_zero.mp h0
      rw [this]
      rfl

theorem state_availability_iff_all_healthy_witness :
    ((main ⟨"GET", ""⟩ (Env.ok [] (fun _ => HttpOutcome.exception ("e")) ("t2"))).body
        = some (success_report ("t2") [] (fun _ => HttpOutcome.exception ("e"))) ∧
     ((success_report ("t2") [] (fun _ => HttpOutcome.exception ("e"))).state = "running" ↔
       (healthy_functions (function_statuses [] (fun _ => HttpOutcome.exception ("e")))).length
         = (functions_to_check []).length) ∧
     ((success_report ("t2") [] (fun _ => HttpOutcome.exception ("e"))).state = "degraded" ↔
       ¬ (healthy_functions (function_statuses [] (fun _ => HttpOutcome.exception ("e")))).length
         = (functions_to_check []).length) ∧
     ((success_report ("t2") [] (fun _ => HttpOutcome.exception ("e"))).availability = "normal" ↔
       (healthy_functions (function_statuses [] (fun _ => HttpOutcome.exception ("e")))).length
         = (functions_to_check []).length) ∧
     ((success_report ("t2") [] (fun _ => HttpOutcome.exception ("e"))).availability = "limited" ↔
       ¬ (healthy_functions (function_statuses [] (fun _ => HttpOutcome.exception ("e")))).length
         = (functions_to_check []).length) ∧
     ((functions_to_check ([] : List DirEntry)).length = 0 →
       (success_report ("t2") [] (fun _ => HttpOutcome.exception ("e"))).state = "running")) :=
  state_availability_iff_all_healthy ⟨"GET", ""⟩ [] (fun _ => HttpOutcome.exception ("e"))
    ("t2") (by decide)

/-- C2: the average response time is the sum of the elapsed fields over the
probe results divided by the probed count, and the health percentage is the
healthy count over the probed count times 100; both are 0 when the probed
count is 0, the division being guarded. -/
theorem average_and_percentage_formulas (entries : List DirEntry)
    (outcomes : String → HttpOutcome) (num_healthy n : Nat) :
    (avg_response_time (total_response_time (function_statuses entries outcomes)) n
        = if n = 0 then 0
          else ((function_statuses entries outcomes).map (fun f => f.elapsed)).sum / (n : ℚ)) ∧
    (health_percentage num_healthy n
        = if n = 0 then 0 else ((num_healthy : ℚ) / (n : ℚ)) * 100) := by
  constructor
  · rcases Nat.eq_zero_or_pos n with h0 | hpos
    · simp [avg_response_time, h0]
    · rw [if_neg (Nat.pos_iff_ne_zero.mp hpos)]
      rw [avg_response_time, if_pos hpos, total_response_time]
  · rcases Nat.eq_zero_or_pos n with h0 | hpos
    · simp [health_percentage, h0]
    · rw [if_neg (Nat.pos_iff_ne_zero.mp hpos)]
      rw [health_percentage, if_pos hpos]

/-- C9: on the success path the metrics array has exactly the 4 entries, in
order: the probed count and healthy count as integers, the average response
time rendered zero-decimal with an `ms` suffix, and the health percentage
rendered one-decimal with a `%` suffix. -/
theorem metrics_fixed_order_four_entries (req : HttpRequest) (entries : List DirEntry)
    (outcomes : String → HttpOutcome) (now : String) (h : req.method ≠ "OPTIONS") :
    (main req (Env.ok entries outcomes now)).body = some (success_report now entries outcomes) ∧
    (success_report now entries outcomes).metrics = some
      [ { name := "Total Functions Checked",
          value := MetricValue.intVal ((functions_to_check entries).length : Int) }
      , { name := "Healthy Functions",
          value := MetricValue.intVal
            ((healthy_functions (function_statuses entries outcomes)).length : Int) }
      , { name := "Average Response Time",
          value := MetricValue.strVal
            (fmtFixed0 (avg_response_time (total_response_time (function_statuses entries outcomes))
              (functions_to_check entries).length) ++ "ms") }
      , { name := "Health Percentage",
          value := MetricValue.strVal
            (fmtFixed1 (health_percentage
              (healthy_functions (function_statuses entries outcomes)).length
              (functions_to_check entries).length) ++ "%") } ] ∧
    ((success_report now entries outcomes).metrics.map (fun l => l.length) = some 4) := by
  refine ⟨?_, rfl, rfl⟩
  simp [main, h, add_cors_headers]

theorem metrics_fixed_order_four_entries_witness :
    ((main ⟨"GET", ""⟩ (Env.ok [⟨"callback", true⟩, ⟨"getcardlist", true⟩]
        (fun _ => HttpOutcome.response 200 3) ("t3"))).body
      = some (success_report ("t3") [⟨"callback", true⟩, ⟨"getcardlist", true⟩]
        (fun _ => HttpOutcome.response 200 3)) ∧
     (success_report ("t3") [⟨"callback", true⟩, ⟨"getcardlist", true⟩]
        (fun _ => HttpOutcome.response 200 3)).metrics = some
      [ { name := "Total Functions Checked",
          value := MetricValue.intVal
            ((functions_to_check [⟨"callback", true⟩, ⟨"getcardlist", true⟩]).length : Int) }
      , { name := "Healthy Functions",
          value := MetricValue.intVal
            ((healthy_functions (function_statuses [⟨"callback", true⟩, ⟨"getcardlist", true⟩]
              (fun _ => HttpOutcome.response 200 3))).length : Int) }
      , { name := "Average Response Time",
          value := MetricValue.strVal
            (fmtFixed0 (avg_response_time
              (total_response_time (function_statuses [⟨"callback", true⟩, ⟨"getcardlist", true⟩]
                (fun _ => HttpOutcome.response 200 3)))
              (functions_to_check [⟨"callback", true⟩, ⟨"getcardlist", true⟩]).length) ++ "ms") }
      , { name := "Health Percentage",
          value := MetricValue.strVal
            (fmtFixed1 (health_percentage
              (healthy_functions (function_statuses [⟨"callback", true⟩, ⟨"getcardlist", true⟩]
                (fun _ => HttpOutcome.response 200 3))).length
              (functions_to_check [⟨"callback", true⟩, ⟨"getcardlist", true⟩]).length) ++ "%") } ] ∧
     ((success_report ("t3") [⟨"callback", true⟩, ⟨"getcardlist", true⟩]
        (fun _ => HttpOutcome.response 200 3)).metrics.map (fun l => l.length) = some 4)) :=
  metrics_fixed_order_four_entries ⟨"GET", ""⟩ [⟨"callback", true⟩, ⟨"getcardlist", true⟩]
    (fun _ => HttpOutcome.response 200 3) ("t3") (by decide)

/-- C5: `callback` is removed from the probe set before probing: the probed
names are exactly the discovered names minus `callback`, no probe result is
named `callback`, the report's functions list is exactly the probe results
over that filtered set, and discovery itself still lists a `callback`
directory when one is present. -/
theorem callback_filtered_before_probing (now : String) (entries : List DirEntry)
    (outcomes : String → HttpOutcome)
    (h : DirEntry.mk ("callback") true ∈ entries) :
    functions_to_check entries
      = (get_function_list entries).filter (fun f => py_lower f != "callback") ∧
    (success_report now entries outcomes).functions
      = some (function_statuses entries outcomes) ∧
    ((function_statuses entries outcomes).all (fun r => r.name != "callback") = true) ∧
    ((functions_to_check entries).all (fun n => n != "callback") = true) ∧
    "callback" ∈ get_function_list entries := by
  refine ⟨rfl, rfl, ?_, ?_, ?_⟩
  · rw [List.all_eq_true]
    intro r hr
    rw [function_statuses, List.mem_map] at hr
    obtain ⟨n, hn, hrn⟩ := hr
    rw [functions_to_check, List.mem_filter] at hn
    rw [bne_iff_ne]
    rw [← hrn, check_function_name_eq]
    intro he
    rw [he] at hn
    exact absurd hn.2 (by decide)
  · rw [List.all_eq_true]
    intro n hn
    rw [functions_to_check, List.mem_filter] at hn
    rw [bne_iff_ne]
    intro he
    rw [he] at hn
    exact absurd hn.2 (by decide)
  · rw [get_function_list, List.mem_map]
    refine ⟨⟨"callback", true⟩, List.mem_filter.mpr ⟨h, by decide⟩, by decide⟩

theorem callback_filtered_before_probing_witness :
    (functions_to_check [⟨"callback", true⟩, ⟨"getstamps", true⟩]
      = (get_function_list [⟨"callback", true⟩, ⟨"getstamps", true⟩]).filter
          (fun f => py_lower f != "callback") ∧
     (success_report ("t4") [⟨"callback", true⟩, ⟨"getstamps", true⟩]
        (fun _ => HttpOutcome.response 200 5)).functions
       = some (function_statuses [⟨"callback", true⟩, ⟨"getstamps", true⟩]
           (fun _ => HttpOutcome.response 200 5)) ∧
     ((function_statuses [⟨"callback", true⟩, ⟨"getstamps", true⟩]
        (fun _ => HttpOutcome.response 200 5)).all (fun r => r.name != "callback") = true) ∧
     ((functions_to_check [⟨"callback", true⟩, ⟨"getstamps", true⟩]).all
        (fun n => n != "callback") = true) ∧
     "callback" ∈ get_function_list [⟨"callback", true⟩, ⟨"getstamps", true⟩]) :=
  callback_filtered_before_probing ("t4") [⟨"callback", true⟩, ⟨"getstamps", true⟩]
    (fun _ => HttpOutcome.response 200 5) (by decide)

theorem mem_get_function_list (entries : List DirEntry) (x : String) :
    x ∈ get_function_list entries ↔
      ∃ e, e ∈ entries ∧ e.isDir = true ∧
        py_startswith e.name ("__") = false ∧
        py_startswith e.name (".") = false ∧
        e.name ≠ "tests" ∧
        py_lower e.name ≠ "getsystemstatus" ∧
        x = py_lower e.name := by
  rw [get_function_list, List.mem_map]
  constructor
  · rintro ⟨e, he, hx⟩
    rw [List.mem_filter] at he
    obtain ⟨hmem, hpred⟩ := he
    simp only [Bool.and_eq_true, Bool.not_eq_true', bne_iff_ne] at hpred
    exact ⟨e, hmem, hpred.1.1.1.1, hpred.1.1.1.2, hpred.1.1.2, hpred.1.2, hpred.2, hx.symm⟩
  · rintro ⟨e, hmem, hdir, h1, h2, h3, h4, hx⟩
    refine ⟨e, List.mem_filter.mpr ⟨hmem, ?_⟩, hx.symm⟩
    simp only [Bool.and_eq_true, Bool.not_eq_true', bne_iff_ne]
    exact ⟨⟨⟨⟨hdir, h1⟩, h2⟩, h3⟩, h4⟩

/-- C6: a name is produced by discovery exactly when some listed directory
entry survives all the exclusions (not starting with a double underscore or
a dot, not the literal `tests`, not the aggregator's own name compared
case-insensitively) and lower-cases to it; and the aggregator's own
lower-cased name is never produced. -/
theorem discovery_membership_characterization (entries : List DirEntry) (x : String) :
    (x ∈ get_function_list entries ↔
      ∃ e, e ∈ entries ∧ e.isDir = true ∧
        py_startswith e.name ("__") = false ∧
        py_startswith e.name (".") = false ∧
        e.name ≠ "tests" ∧
        py_lower e.name ≠ "getsystemstatus" ∧
        x = py_lower e.name) ∧
    ((get_function_list entries).all (fun y => y != "getsystemstatus") = true) := by
  refine ⟨mem_get_function_list entries x, ?_⟩
  rw [List.all_eq_true]
  intro y hy
  rw [bne_iff_ne]
  intro he
  obtain ⟨e, -, -, -, -, -, hown, hx⟩ := (mem_get_function_list entries y).mp hy
  exact hown (hx.symm.trans he)

end GetSystemStatus
